import Mathlib

/-!
Shallow embedding of the shard connection-lifecycle driver of the dawn
gateway crate (`gateway/src/shard/processor.rs`).

The driver (`ShardProcessor`) owns a `Session`, a listener registry and a
receive end of the socket forwarder.  Pure protocol decisions are embedded
as total Lean functions over an explicit `ShardState`; the outcomes of the
external collaborators (the transport, `Session.send`, `Session.heartbeat`)
are supplied by an `Env` oracle.  Every invocation of `reconnect()` is
modelled as non-returning (`PResult.hung`), because the source's reconnect
loop (processor.rs lines 182-197) contains no `break` or `return`: its body
swaps `self` via `mem::replace` and then iterates again, so control never
comes back to the caller.  The loop body itself is modelled separately by
`reconnectLoop`, driven by a finite prefix of construction-attempt outcomes.
-/

namespace Dawn

/-- Modelled from the spec: the handshake `Stage` enum (`stage.rs` is not
among the extracted sources).  Spec section 3: `Identifying | Resuming |
Connected`. -/
inductive Stage
  | Identifying
  | Resuming
  | Connected
deriving DecidableEq, Repr

/-- Immutable configuration (token, shard coordinates); `config.rs` is
external to the extracted sources, only the fields read by processor.rs
(`token()`, `shard()`, `queue`) matter here. -/
structure Config where
  token : String
  shardIndex : Nat
  shardCount : Nat
deriving DecidableEq, Repr

/-- Modelled from the spec: the `Session` record (`session.rs` is not among
the extracted sources).  Spec section 4.2: stage, last observed sequence
number, optional resumable session identifier, heartbeat interval, the
heartbeater activity, and the "awaiting ack" liveness flag (armed on a
heartbeat send, cleared by `heartbeats.receive()`). -/
structure SessionState where
  seq : Nat
  stage : Stage
  id : Option String
  heartbeatInterval : Option Nat
  heartbeaterStarted : Bool
  awaitingAck : Bool
deriving DecidableEq, Repr

/-- Modelled from the spec: `Session::new` builds a fresh session for one
physical connection — no sequence observed yet, no session identifier,
stage pending-identify (spec sections 3 and 4.2). -/
def freshSession : SessionState :=
  { seq := 0
    stage := Stage.Identifying
    id := none
    heartbeatInterval := none
    heartbeaterStarted := false
    awaitingAck := false }

/-- Modelled from the spec: one registered listener (`listener.rs` is not
among the extracted sources).  processor.rs lines 87-96 read exactly two
things from a listener: its event-type filter (`listener.events`, checked
with `contains`) and its channel (`listener.tx`, whose `unbounded_send`
fails precisely when the receiver was dropped).  Classifiers are abstracted
as `Nat`; `chanOpen` records whether the subscriber's receive end is still
alive. -/
structure Listener where
  events : List Nat
  chanOpen : Bool
deriving DecidableEq, Repr

/-- The listener registry: identifier-keyed listeners, as iterated by the
broadcast pass of the run loop (processor.rs lines 85-103). -/
abbrev Registry := List (Nat × Listener)

/-- The driver state: `ShardProcessor`'s fields that the claims are about
(processor.rs lines 27-33).  The transport/forwarder handles (`rx`) and the
static identify `properties` carry no protocol state and are left to the
`Env` oracle. -/
structure ShardState where
  config : Config
  session : SessionState
  listeners : Registry
deriving DecidableEq, Repr

/-- `ShardProcessor::new` on success (processor.rs lines 36-54): a fresh
forwarder and transport, `listeners: Arc::new(Listeners::default())` — a
brand-new empty registry — and `session: Arc::new(Session::new(tx))`. -/
def freshShard (cfg : Config) : ShardState :=
  { config := cfg, session := freshSession, listeners := [] }

/-- The dispatch payloads distinguished by `process` (processor.rs lines
132-142): `Ready` (carrying a session identifier), `Resumed`, and the
catch-all arm for every other payload kind (indexed here by a `Nat`). -/
inductive DispatchEvent
  | Ready (sessionId : String)
  | Resumed
  | Other (kind : Nat)
deriving DecidableEq, Repr

/-- Inbound control events, one constructor per arm of `process`
(processor.rs lines 128-177). -/
inductive GatewayEvent
  | Dispatch (seq : Nat) (d : DispatchEvent)
  | Heartbeat (seq : Nat)
  | Hello (interval : Nat)
  | HeartbeatAck
  | InvalidateSession (resumable : Bool)
  | Reconnect
deriving DecidableEq, Repr

/-- Outbound payloads handed to `Session.send`: `Identify` (processor.rs
lines 111-120) and `Resume` (line 210, `Resume::new(seq, id, token)`). -/
inductive Payload
  | identify (token : String) (shardIndex shardCount : Nat)
  | resume (seq : Nat) (sessionId : String) (token : String)
deriving DecidableEq, Repr

/-- Observable actions of the driver, recorded as a trace: an invocation of
`Session.send` with a payload, an invocation of `Session.heartbeat`, entry
into `resume()`, and entry into `reconnect()`. -/
inductive Action
  | sessionSend (p : Payload)
  | heartbeatProbe
  | resumeCall
  | reconnectCall
deriving DecidableEq, Repr

/-- The outcome `Session.send` would produce, matching the error arms of
`ShardProcessor::send` (processor.rs lines 218-239): success,
`Error::PayloadSerialization`, `Error::SendingMessage`, or any other
error. -/
inductive SendOutcome
  | ok
  | serializationErr
  | sendingErr
  | otherErr
deriving DecidableEq, Repr

/-- Oracle for the external collaborators: the outcome of the next
`Session.send` call and of the next `Session.heartbeat` call. -/
structure Env where
  sendOutcome : SendOutcome
  heartbeatOk : Bool
deriving DecidableEq, Repr

/-- Errors surfaced by driver methods returning `Result` (processor.rs
`Error::PayloadSerialization` and the pass-through `Err(other)` arm). -/
inductive GErr
  | payloadSerialization
  | otherErr
deriving DecidableEq, Repr

/-- Result of one driver operation: normal return with the new state and an
action trace, an error return, or `hung` — control entered `reconnect()`,
whose loop never exits (processor.rs lines 183-196 contain no `break`), so
the operation never returns to its caller.  `hung` carries the state at the
moment `reconnect()` was entered. -/
inductive PResult
  | ok (s : ShardState) (tr : List Action)
  | err (e : GErr) (s : ShardState) (tr : List Action)
  | hung (s : ShardState) (tr : List Action)
deriving DecidableEq, Repr

/-- The action trace of a result. -/
def PResult.trace : PResult → List Action
  | .ok _ tr => tr
  | .err _ _ tr => tr
  | .hung _ tr => tr

/-- Prefix a result's trace with earlier actions. -/
def PResult.withPre (pre : List Action) : PResult → PResult
  | .ok s tr => .ok s (pre ++ tr)
  | .err e s tr => .err e s (pre ++ tr)
  | .hung s tr => .hung s (pre ++ tr)

/-- One unrolling of the body of `reconnect()` (processor.rs lines 182-197)
over a finite prefix of construction-attempt outcomes (`true` =
`Self::new` succeeded).  Each iteration requests one admission-queue slot;
a successful construction is swapped in via `mem::replace` (replacing the
session AND the listener registry with fresh ones), a failed one is logged
and the loop continues.  Returns the state after the prefix, the number of
queue slots requested, and whether the loop exited back to the caller
within the prefix — which it never does, since the body has no `break`. -/
def reconnectLoop : ShardState → List Bool → ShardState × Nat × Bool
  | s, [] => (s, 0, false)
  | s, a :: rest =>
    let r := reconnectLoop (if a then freshShard s.config else s) rest
    (r.1, r.2.1 + 1, r.2.2)

/-- `ShardProcessor::send` (processor.rs lines 217-241): delegate to
`Session.send`; return `Ok` on success; return a serialization error
unchanged; on `Error::SendingMessage` invoke `reconnect()` — which never
returns, so the `Ok(())` written after it is unreachable; return any other
error unchanged. -/
def send (st : ShardState) (env : Env) (p : Payload) : PResult :=
  match env.sendOutcome with
  | .ok => .ok st [.sessionSend p]
  | .serializationErr => .err .payloadSerialization st [.sessionSend p]
  | .sendingErr => .hung st [.sessionSend p, .reconnectCall]
  | .otherErr => .err .otherErr st [.sessionSend p]

/-- `ShardProcessor::identify` (processor.rs lines 108-123): set stage
`Identifying`, build the identify payload from the config, and `send` it. -/
def identify (st : ShardState) (env : Env) : PResult :=
  let s1 : ShardState :=
    { st with session := { st.session with stage := Stage.Identifying } }
  send s1 env (.identify st.config.token st.config.shardIndex st.config.shardCount)

/-- `ShardProcessor::resume` (processor.rs lines 199-215): set stage
`Resuming`; if no session identifier is stored, fall back to `reconnect()`
(which never returns); otherwise send a `Resume` payload carrying the
stored sequence, the stored identifier and the configured token. -/
def resume (st : ShardState) (env : Env) : PResult :=
  let s1 : ShardState :=
    { st with session := { st.session with stage := Stage.Resuming } }
  match s1.session.id with
  | none => .hung s1 [.resumeCall, .reconnectCall]
  | some i =>
    (send s1 env (.resume s1.session.seq i s1.config.token)).withPre [.resumeCall]

/-- The heartbeat-now step of the `Heartbeat` arm (processor.rs lines
149-153): invoke `Session.heartbeat`; on success fall through (the probe
arms the liveness flag, spec section 4.2); on a local failure invoke
`reconnect()` — which never returns. -/
def heartbeatAttempt (st : ShardState) (env : Env) (pre : List Action) : PResult :=
  if env.heartbeatOk then
    .ok { st with session := { st.session with awaitingAck := true } }
      (pre ++ [.heartbeatProbe])
  else
    .hung st (pre ++ [.heartbeatProbe, .reconnectCall])

/-- `ShardProcessor::process` (processor.rs lines 125-180), one arm per
inbound control event:
`Dispatch(seq, d)` sets the stored sequence unconditionally, then on
`Ready` sets stage `Connected` and records the session identifier, on
`Resumed` sets stage `Connected` and clears the liveness flag
(`heartbeats.receive()`), and does nothing more for other payloads;
`Heartbeat(seq)` resumes when `seq > stored + 1` (propagating a resume
error), then attempts a heartbeat probe, reconnecting on probe failure;
`Hello(interval)` sets stage `Identifying`, stores the interval and starts
the heartbeater when positive, then identifies;
`HeartbeatAck` clears the liveness flag;
`InvalidateSession(true)` resumes, `InvalidateSession(false)` and
`Reconnect` invoke `reconnect()` (which never returns). -/
def process (st : ShardState) (env : Env) : GatewayEvent → PResult
  | .Dispatch q d =>
    let s1 : ShardState := { st with session := { st.session with seq := q } }
    match d with
    | .Ready sid =>
      .ok { s1 with session :=
              { s1.session with stage := Stage.Connected, id := some sid } } []
    | .Resumed =>
      .ok { s1 with session :=
              { s1.session with stage := Stage.Connected, awaitingAck := false } } []
    | .Other _ => .ok s1 []
  | .Heartbeat q =>
    if st.session.seq + 1 < q then
      match resume st env with
      | .ok s tr => heartbeatAttempt s env tr
      | r => r
    else
      heartbeatAttempt st env []
  | .Hello interval =>
    let s1 : ShardState :=
      { st with session := { st.session with stage := Stage.Identifying } }
    let s2 : ShardState :=
      if 0 < interval then
        { s1 with session :=
            { s1.session with heartbeatInterval := some interval,
                              heartbeaterStarted := true } }
      else s1
    identify s2 env
  | .HeartbeatAck =>
    .ok { st with session := { st.session with awaitingAck := false } } []
  | .InvalidateSession true => resume st env
  | .InvalidateSession false => .hung st [.reconnectCall]
  | .Reconnect => .hung st [.reconnectCall]

/-- Sequential processing of a list of inbound control events on one
driver, stopping at the first error or at a non-returning reconnect
(the run loop `unwrap`s each `process` result and a hung reconnect never
yields control back). -/
def processList (env : Env) : List GatewayEvent → ShardState → PResult
  | [], st => .ok st []
  | e :: rest, st =>
    match process st env e with
    | .ok s tr =>
      match processList env rest s with
      | .ok s2 tr2 => .ok s2 (tr ++ tr2)
      | .err ge s2 tr2 => .err ge s2 (tr ++ tr2)
      | .hung s2 tr2 => .hung s2 (tr ++ tr2)
    | .err ge s tr => .err ge s tr
    | .hung s tr => .hung s tr

/-- The fan-out pass of the run loop (processor.rs lines 87-97): for each
registered listener in order, skip it when its filter does not contain the
event's classifier; otherwise attempt a non-blocking `unbounded_send`,
which succeeds exactly when the subscriber's channel is still open, and on
failure push the listener's identifier onto the accumulated
`remove_listeners` vector.  Returns (identifiers delivered to, final
`remove_listeners` contents). -/
def broadcastPass (et : Nat) : Registry → List Nat → List Nat × List Nat
  | [], acc => ([], acc)
  | (i, l) :: rest, acc =>
    if l.events.contains et then
      if l.chanOpen then
        let r := broadcastPass et rest acc
        (i :: r.1, r.2)
      else
        broadcastPass et rest (acc ++ [i])
    else
      broadcastPass et rest acc

/-- The removal loop of the run loop (processor.rs lines 99-101): remove
every identifier in `remove_listeners` from the registry. -/
def removeIds (r : Registry) (ids : List Nat) : Registry :=
  r.filter (fun p => !ids.contains p.1)

/-- `listeners.clear()` (processor.rs line 103): empties the registry. -/
def clearRegistry (_r : Registry) : Registry := []

/-- The whole broadcast phase of one run-loop iteration (processor.rs lines
85-103): fan-out pass, removal of the marked identifiers, then
`listeners.clear()`.  Returns (identifiers delivered to, registry
afterwards).  Note the source never drains `remove_listeners` itself, so
`acc` is whatever the vector already held from earlier iterations. -/
def broadcastPhase (r : Registry) (acc : List Nat) (et : Nat) :
    List Nat × Registry :=
  let p := broadcastPass et r acc
  (p.1, clearRegistry (removeIds r p.2))

/-- A frame read from the inbound receive end, after the forwarder
(`Message::Binary/Close/Ping/Pong/Text`); for binary and text frames,
whether the payload decodes to a gateway event. -/
inductive InboundMsg
  | binary (decoded : Option GatewayEvent)
  | close
  | ping
  | pong
  | text (decoded : Option GatewayEvent)
deriving DecidableEq, Repr

/-- The result of `self.rx.next().await`: a frame, or `None` because the
socket forwarder has ended (the comment on processor.rs line 60). -/
inductive RxRead
  | msg (m : InboundMsg)
  | closed
deriving DecidableEq, Repr

/-- How one run-loop iteration disposes of its read (processor.rs lines
59-82): panic (an `unwrap` of `None` or of a failed decode), invoke
`reconnect()`, skip the frame, or hand a decoded event to `process` and
the broadcast phase. -/
inductive IterOutcome
  | panicked
  | reconnectInvoked
  | skipped
  | dispatched (ev : GatewayEvent)
deriving DecidableEq, Repr

/-- The frame-classification head of one run-loop iteration (processor.rs
lines 59-82): `rx.next()` returning `None` is `unwrap`ped — a panic;
`Message::Close` triggers `reconnect()`; ping/pong frames are skipped;
binary/text frames are decoded, a decode failure being `unwrap`ped — a
panic — and a decoded event going on to `process` and the broadcast. -/
def runIteration : RxRead → IterOutcome
  | .closed => .panicked
  | .msg (.binary none) => .panicked
  | .msg (.binary (some ev)) => .dispatched ev
  | .msg .close => .reconnectInvoked
  | .msg .ping => .skipped
  | .msg .pong => .skipped
  | .msg (.text none) => .panicked
  | .msg (.text (some ev)) => .dispatched ev

/-- Last element of a list of sequence numbers, defaulting to the value
stored before any of them was processed. -/
def lastSeq (d : Nat) : List Nat → Nat
  | [] => d
  | a :: rest => lastSeq a rest

/-- The `Dispatch` events for a list of (sequence, payload) pairs. -/
def dispatchEvents (ds : List (Nat × DispatchEvent)) : List GatewayEvent :=
  ds.map fun p => GatewayEvent.Dispatch p.1 p.2

/-- The stored sequence number after processing a list of dispatches. -/
def seqAfterDispatches (env : Env) (st : ShardState)
    (ds : List (Nat × DispatchEvent)) : Nat :=
  match processList env (dispatchEvents ds) st with
  | .ok s _ => s.session.seq
  | .err _ s _ => s.session.seq
  | .hung s _ => s.session.seq

/-- Whether a trace contains a `Session.send` of a `Resume` payload. -/
def sendsResume (tr : List Action) : Bool :=
  tr.any fun a =>
    match a with
    | .sessionSend (.resume _ _ _) => true
    | _ => false

/-- Example configuration used by concrete evaluations. -/
def exConfig : Config := { token := "tok", shardIndex := 0, shardCount := 1 }

/-- A freshly constructed shard over the example configuration. -/
def exFresh : ShardState := freshShard exConfig

/-- A connected shard holding one registered listener, sequence 5 and a
stored session identifier. -/
def exShardWithListener : ShardState :=
  { config := exConfig
    session :=
      { freshSession with seq := 5, stage := Stage.Connected, id := some "abc" }
    listeners := [(1, { events := [0], chanOpen := true })] }

/-- Environment where every collaborator call succeeds. -/
def exEnvOk : Env := { sendOutcome := .ok, heartbeatOk := true }

/-- Environment where `Session.send` fails with a serialization error. -/
def exEnvSer : Env := { sendOutcome := .serializationErr, heartbeatOk := true }

/-- Environment where `Session.send` fails with `Error::SendingMessage`. -/
def exEnvSendFail : Env := { sendOutcome := .sendingErr, heartbeatOk := true }

/-- Example registry: listener 1 matches classifier 0 with an open channel,
listener 2 does not match classifier 0, listener 3 matches classifier 0 but
its channel is closed. -/
def exRegistry : Registry :=
  [(1, { events := [0], chanOpen := true }),
   (2, { events := [1], chanOpen := true }),
   (3, { events := [0], chanOpen := false })]

end Dawn

namespace Dawn

/-- C1: the claim says a successful reconnect leaves the listener registry
unchanged.  The code does not: `ShardProcessor::new` installs
`Arc::new(Listeners::default())` — a brand-new empty registry — and
`mem::replace(self, shard)` swaps it in, discarding every registered
listener.  Starting from a state with one registered listener, one
successful construction attempt leaves the registry empty. -/
theorem reconnect_swaps_in_empty_registry :
    exShardWithListener.listeners ≠ [] ∧
    (reconnectLoop exShardWithListener [true]).1.listeners = [] := by decide

/-- C2: the claim says `reconnect()` returns to its caller as soon as one
construction attempt succeeds.  The code's loop has no `break`: for every
prefix of attempt outcomes the loop has not exited (third component
`false`), and even after a first successful swap it keeps requesting
admission-queue slots (two slots requested across two successful
attempts). -/
theorem reconnect_loop_never_returns (s : ShardState) (attempts : List Bool) :
    (reconnectLoop s attempts).2.2 = false ∧
    (reconnectLoop exShardWithListener [true, true]).2.1 = 2 := by
  refine ⟨?_, by decide⟩
  induction attempts generalizing s with
  | nil => rfl
  | cons a rest ih => simpa [reconnectLoop] using ih (if a then freshShard s.config else s)

/-- C5 counterexample: the claim says a closed inbound receive end triggers
a full reconnect.  It does not: `self.rx.next().await.unwrap()` panics on
`None`, which is what a closed receive end produces. -/
theorem inbound_closed_does_not_reconnect :
    runIteration RxRead.closed = IterOutcome.panicked ∧
    runIteration RxRead.closed ≠ IterOutcome.reconnectInvoked := by decide

/-- C5 amended: a closed inbound receive end makes the run loop panic (a
hard failure); it is receiving an explicit `Close` frame that triggers the
full reconnect. -/
theorem inbound_closed_panics_close_frame_reconnects :
    runIteration RxRead.closed = IterOutcome.panicked ∧
    runIteration (RxRead.msg InboundMsg.close) = IterOutcome.reconnectInvoked := by decide

/-- C6: a serialization failure of `Session.send` is surfaced to the caller
unchanged, as the claim says; but on a transport-send failure
(`Error::SendingMessage`) `send` invokes `reconnect()`, which never
returns, so the `Ok(())` written after it on processor.rs line 237 is never
actually returned to the caller. -/
theorem send_serialization_surfaced_sending_hangs :
    send exFresh exEnvSer (Payload.identify "tok" 0 1) =
      PResult.err GErr.payloadSerialization exFresh
        [Action.sessionSend (Payload.identify "tok" 0 1)] ∧
    send exFresh exEnvSendFail (Payload.identify "tok" 0 1) =
      PResult.hung exFresh
        [Action.sessionSend (Payload.identify "tok" 0 1), Action.reconnectCall] := by decide

/-- C8: the fan-out itself is as claimed on this input — classifier 0 is
delivered exactly to listener 1 (matching filter, open channel), not to
listener 2 (non-matching) nor 3 (closed channel), and exactly listener 3 is
marked for removal — but after the pass the code executes
`listeners.clear()`, so the registry ends empty: listeners 1 and 2 are
gone although the claim says they remain registered. -/
theorem broadcast_clear_removes_live_listeners :
    broadcastPass 0 exRegistry [] = ([1], [3]) ∧
    broadcastPhase exRegistry [] 0 = ([1], []) := by decide

/-- C9: processing `Dispatch(seq, Ready(sid))` stores the sequence, sets
stage `Connected` and records the session identifier; a payload of any
other non-`Resumed` kind updates the stored sequence and nothing else. -/
theorem dispatch_ready_effect (st : ShardState) (env : Env) (q : Nat)
    (sid : String) (k : Nat) :
    process st env (GatewayEvent.Dispatch q (DispatchEvent.Ready sid)) =
      PResult.ok { st with session :=
        { st.session with seq := q, stage := Stage.Connected, id := some sid } } [] ∧
    process st env (GatewayEvent.Dispatch q (DispatchEvent.Other k)) =
      PResult.ok { st with session := { st.session with seq := q } } [] :=
  ⟨rfl, rfl⟩

/-- C10: at the end of every run-loop iteration that reaches the broadcast
phase, the registry is left completely empty — `listeners.clear()` runs
after the removal loop, for every registry, removal accumulator and event
classifier. -/
theorem broadcast_phase_empties_registry (r : Registry) (acc : List Nat) (et : Nat) :
    (broadcastPhase r acc et).2 = [] := rfl

end Dawn

namespace Dawn

/-- Every invocation of `resume()` records its entry in the trace,
whatever the session identifier and send outcome are. -/
lemma resumeCall_mem_resume_trace (st : ShardState) (env : Env) :
    Action.resumeCall ∈ (resume st env).trace := by
  cases hid : st.session.id <;> cases hso : env.sendOutcome <;>
    simp [resume, send, PResult.trace, PResult.withPre, hid, hso]

/-- When `resume()` returns normally, the session's stored sequence is
unchanged (only the stage was touched and a payload sent). -/
lemma resume_ok_seq (st : ShardState) (env : Env) (s : ShardState)
    (tr : List Action) (h : resume st env = PResult.ok s tr) :
    s.session.seq = st.session.seq := by
  cases hid : st.session.id with
  | none => simp [resume, hid] at h
  | some i =>
    cases hso : env.sendOutcome <;>
      simp [resume, send, PResult.withPre, hid, hso] at h
    obtain ⟨h1, -⟩ := h
    rw [← h1]

/-- When the heartbeat-now step returns normally, the stored sequence is
unchanged (only the liveness flag was armed). -/
lemma heartbeatAttempt_ok_seq (st : ShardState) (env : Env) (pre : List Action)
    (s : ShardState) (tr : List Action)
    (h : heartbeatAttempt st env pre = PResult.ok s tr) :
    s.session.seq = st.session.seq := by
  cases hb : env.heartbeatOk <;> simp [heartbeatAttempt, hb] at h
  obtain ⟨h1, -⟩ := h
  rw [← h1]

/-- Processing one `Dispatch` always returns normally with an empty trace
and stores exactly the event's sequence number. -/
lemma process_dispatch_ok (st : ShardState) (env : Env) (q : Nat)
    (d : DispatchEvent) :
    ∃ s, process st env (GatewayEvent.Dispatch q d) = PResult.ok s [] ∧
      s.session.seq = q := by
  cases d <;> exact ⟨_, rfl, rfl⟩

/-- Processing a list of `Dispatch` events always returns normally and
stores the last event's sequence number (or keeps the prior one when the
list is empty). -/
lemma processList_dispatches (env : Env) (ds : List (Nat × DispatchEvent)) :
    ∀ st : ShardState, ∃ s,
      processList env (dispatchEvents ds) st = PResult.ok s [] ∧
      s.session.seq = lastSeq st.session.seq (ds.map Prod.fst) := by
  induction ds with
  | nil => intro st; exact ⟨st, rfl, rfl⟩
  | cons p rest ih =>
    intro st
    obtain ⟨s1, h1, hs1⟩ := process_dispatch_ok st env p.1 p.2
    obtain ⟨s2, h2, hs2⟩ := ih s1
    refine ⟨s2, ?_, ?_⟩
    · have h2a : processList env
          (List.map (fun p => GatewayEvent.Dispatch p.1 p.2) rest) s1 =
          PResult.ok s2 [] := h2
      simp [dispatchEvents, processList, h1, h2a]
    · simpa [lastSeq, hs1] using hs2

/-- The stored sequence after a dispatch list is its last sequence
number. -/
lemma seqAfterDispatches_eq (env : Env) (st : ShardState)
    (ds : List (Nat × DispatchEvent)) :
    seqAfterDispatches env st ds = lastSeq st.session.seq (ds.map Prod.fst) := by
  obtain ⟨s, h, hs⟩ := processList_dispatches env ds st
  simp [seqAfterDispatches, h, hs]

/-- Along a nondecreasing chain of sequence numbers, the last value of a
longer prefix dominates that of a shorter one. -/
lemma lastSeq_take_mono :
    ∀ (l : List Nat) (a : Nat), List.Chain' (· ≤ ·) (a :: l) →
      ∀ i j : Nat, i ≤ j → lastSeq a (l.take i) ≤ lastSeq a (l.take j) := by
  intro l
  induction l with
  | nil => intro a _ i j _; simp [List.take_nil, lastSeq]
  | cons x xs ih =>
    intro a hch i j hij
    have hax : a ≤ x := (List.chain'_cons.mp hch).1
    have hch2 : List.Chain' (· ≤ ·) (x :: xs) := (List.chain'_cons.mp hch).2
    match i, j, hij with
    | 0, 0, _ => exact le_refl _
    | 0, j + 1, _ =>
      have hx : lastSeq x (xs.take 0) ≤ lastSeq x (xs.take j) :=
        ih x hch2 0 j (Nat.zero_le _)
      calc lastSeq a ((x :: xs).take 0) = a := rfl
        _ ≤ x := hax
        _ = lastSeq x (xs.take 0) := rfl
        _ ≤ lastSeq x (xs.take j) := hx
        _ = lastSeq a ((x :: xs).take (j + 1)) := rfl
    | i + 1, j + 1, hij =>
      have := ih x hch2 i j (Nat.succ_le_succ_iff.mp hij)
      simpa [List.take_succ_cons, lastSeq] using this

/-- A `Heartbeat` arm that returns normally leaves the stored sequence
unchanged: its comparison reads the sequence but never writes it. -/
lemma process_heartbeat_ok_seq (st : ShardState) (env : Env) (q : Nat)
    (s : ShardState) (tr : List Action)
    (h : process st env (GatewayEvent.Heartbeat q) = PResult.ok s tr) :
    s.session.seq = st.session.seq := by
  by_cases hc : st.session.seq + 1 < q
  · simp only [process, if_pos hc] at h
    cases hr : resume st env with
    | ok s1 tr1 =>
      rw [hr] at h
      exact (heartbeatAttempt_ok_seq s1 env tr1 s tr h).trans
        (resume_ok_seq st env s1 tr1 hr)
    | err e s1 tr1 => rw [hr] at h; simp at h
    | hung s1 tr1 => rw [hr] at h; simp at h
  · simp only [process, if_neg hc] at h
    exact heartbeatAttempt_ok_seq st env [] s tr h

/-- C7: `resume()` sends a `Resume` payload iff a session identifier is
currently stored; with none stored it falls back to `reconnect()` without
sending any `Resume`; with one stored, the payload handed to
`Session.send` carries exactly the stored sequence number, the stored
identifier and the configured token. -/
theorem resume_sends_iff_id_stored (st : ShardState) (env : Env) :
    (sendsResume (resume st env).trace = st.session.id.isSome) ∧
    (st.session.id = none →
      Action.reconnectCall ∈ (resume st env).trace ∧
      sendsResume (resume st env).trace = false) ∧
    (∀ i, st.session.id = some i →
      Action.sessionSend (Payload.resume st.session.seq i st.config.token) ∈
        (resume st env).trace) := by
  cases hid : st.session.id <;> cases hso : env.sendOutcome <;>
    simp [resume, send, PResult.trace, PResult.withPre, sendsResume, hid, hso]

/-- Witness for C7: on the connected example shard (sequence 5, stored
identifier "abc", token "tok"), `resume()` hands `Session.send` exactly
`Resume(5, "abc", "tok")`. -/
theorem resume_sends_iff_id_stored_witness :
    Action.sessionSend (Payload.resume 5 "abc" "tok") ∈
      (resume exShardWithListener exEnvOk).trace :=
  (resume_sends_iff_id_stored exShardWithListener exEnvOk).2.2 "abc" rfl

end Dawn

namespace Dawn

/-- C4: on one `Session`, processing an ordered (nondecreasing-sequence)
list of `Dispatch` events always completes, stores exactly the last
event's sequence number, the stored value never drops below any previously
stored value (prefix-monotonicity), and a `Heartbeat` arm that returns
normally never decreases the stored sequence — its comparison only reads
it. -/
theorem dispatch_seq_monotone (env : Env) (st : ShardState)
    (ds : List (Nat × DispatchEvent))
    (hchain : List.Chain' (· ≤ ·) (st.session.seq :: ds.map Prod.fst)) :
    (∃ s tr, processList env (dispatchEvents ds) st = PResult.ok s tr ∧
      s.session.seq = lastSeq st.session.seq (ds.map Prod.fst)) ∧
    (∀ i j : Nat, i ≤ j →
      seqAfterDispatches env st (ds.take i) ≤ seqAfterDispatches env st (ds.take j)) ∧
    (∀ q s tr, process st env (GatewayEvent.Heartbeat q) = PResult.ok s tr →
      s.session.seq = st.session.seq) := by
  refine ⟨?_, ?_, ?_⟩
  · obtain ⟨s, h, hs⟩ := processList_dispatches env ds st
    exact ⟨s, [], h, hs⟩
  · intro i j hij
    rw [seqAfterDispatches_eq, seqAfterDispatches_eq, List.map_take, List.map_take]
    exact lastSeq_take_mono (ds.map Prod.fst) st.session.seq hchain i j hij
  · intro q s tr h
    exact process_heartbeat_ok_seq st env q s tr h

/-- Witness for C4: processing the ordered dispatches with sequences 1 then
3 on a fresh shard completes and stores sequence 3. -/
theorem dispatch_seq_monotone_witness :
    ∃ s tr, processList exEnvOk
      (dispatchEvents [(1, DispatchEvent.Other 0), (3, DispatchEvent.Ready "abc")])
      exFresh = PResult.ok s tr ∧ s.session.seq = 3 :=
  (dispatch_seq_monotone exEnvOk exFresh
    [(1, DispatchEvent.Other 0), (3, DispatchEvent.Ready "abc")]
    (by
      have h : List.Chain' (· ≤ ·) [0, 1, 3] :=
        List.chain'_cons.mpr ⟨by omega,
          List.chain'_cons.mpr ⟨by omega, List.chain'_singleton 3⟩⟩
      exact h)).1

/-- C3 counterexample: stored sequence 5 and inbound `Heartbeat(7)` — 7
exceeds 5 + 1, so a resume is attempted, and yet a heartbeat probe is ALSO
attempted in the same arm (the source uses two independent `if`
statements, not an if/else), refuting "otherwise (and only otherwise) a
heartbeat probe is sent now". -/
theorem heartbeat_probe_sent_alongside_resume :
    exShardWithListener.session.seq + 1 < 7 ∧
    Action.resumeCall ∈
      (process exShardWithListener exEnvOk (GatewayEvent.Heartbeat 7)).trace ∧
    Action.heartbeatProbe ∈
      (process exShardWithListener exEnvOk (GatewayEvent.Heartbeat 7)).trace := by
  decide

/-- C3 amended: on `Heartbeat(seq)`, a resume is attempted iff `seq`
exceeds the stored sequence by more than one; a heartbeat probe send is
attempted not only in the other case but also whenever the resume attempt
returned normally; and in either situation a local failure of the probe
send triggers a full reconnect. -/
theorem heartbeat_event_behavior (st : ShardState) (env : Env) (q : Nat) :
    (Action.resumeCall ∈ (process st env (GatewayEvent.Heartbeat q)).trace ↔
      st.session.seq + 1 < q) ∧
    (¬ st.session.seq + 1 < q →
      Action.heartbeatProbe ∈ (process st env (GatewayEvent.Heartbeat q)).trace ∧
      (env.heartbeatOk = false →
        Action.reconnectCall ∈ (process st env (GatewayEvent.Heartbeat q)).trace) ∧
      (env.heartbeatOk = true → ∃ s,
        process st env (GatewayEvent.Heartbeat q) =
          PResult.ok s [Action.heartbeatProbe])) ∧
    (st.session.seq + 1 < q → ∀ s tr, resume st env = PResult.ok s tr →
      Action.heartbeatProbe ∈ (process st env (GatewayEvent.Heartbeat q)).trace ∧
      (env.heartbeatOk = false →
        Action.reconnectCall ∈ (process st env (GatewayEvent.Heartbeat q)).trace)) := by
  by_cases hc : st.session.seq + 1 < q
  · refine ⟨⟨fun _ => hc, fun _ => ?_⟩, fun hn => absurd hc hn, fun _ s tr hr => ?_⟩
    · simp only [process, if_pos hc]
      cases hr : resume st env with
      | ok s1 tr1 =>
        have := resumeCall_mem_resume_trace st env
        rw [hr] at this
        cases hb : env.heartbeatOk <;>
          simp [heartbeatAttempt, hb, PResult.trace] <;>
          simpa [PResult.trace] using this
      | err e s1 tr1 =>
        have := resumeCall_mem_resume_trace st env
        rw [hr] at this
        simpa [PResult.trace] using this
      | hung s1 tr1 =>
        have := resumeCall_mem_resume_trace st env
        rw [hr] at this
        simpa [PResult.trace] using this
    · simp only [process, if_pos hc, hr]
      cases hb : env.heartbeatOk <;>
        simp [heartbeatAttempt, hb, PResult.trace]
  · refine ⟨⟨fun hm => ?_, fun hq => absurd hq hc⟩, fun _ => ?_, fun hq => absurd hq hc⟩
    · exfalso
      revert hm
      simp only [process, if_neg hc]
      cases hb : env.heartbeatOk <;> simp [heartbeatAttempt, hb, PResult.trace]
    · simp only [process, if_neg hc]
      cases hb : env.heartbeatOk <;>
        simp [heartbeatAttempt, hb, PResult.trace]

/-- Witness for C3 amended: heartbeat 3 against stored sequence 5 does not
trigger a resume, and a heartbeat probe is attempted. -/
theorem heartbeat_event_behavior_witness :
    Action.heartbeatProbe ∈
      (process exShardWithListener exEnvOk (GatewayEvent.Heartbeat 3)).trace :=
  ((heartbeat_event_behavior exShardWithListener exEnvOk 3).2.1 (by decide)).1

end Dawn
